import Mathlib

/-!
Verification of the Load Impact cloud API client (`stats/cloud/client.go`).

The Go code is shallowly embedded:

* JSON documents are the inductive `Json`; a response body is `Body`
  (empty, malformed text, or a parsed JSON document), and the behaviour of
  `json.NewDecoder(r.Body).Decode(target)` is `decodeBody`, which yields
  `Except DecodeErr` where `DecodeErr.eof` stands for `io.EOF` (the error
  the Go decoder returns on an exactly-empty input) and `DecodeErr.other`
  stands for every other decode error (syntax errors, type mismatches).
* Go `error` values returned by the client become the sum type `ApiError`;
  the sentinel errors `ErrNotAuthenticated` / `ErrNotAuthorized` and the
  `ErrorResponse` struct live in a sibling file of the same Go package and
  are reflected here as distinct constructors, matching their use sites.
* `os.Getenv("K6CLOUD_HOST")` is threaded into `NewClient` as the extra
  argument `hostEnv` (Go's `Getenv` returns `""` when the variable is
  unset, so `""` models "absent").
* The side effects of `Do` (header mutation, the HTTP call, the deferred
  `resp.Body.Close()` and its error logging, and decoding into the caller
  target `v`) are made observable through an event trace and through the
  returned request/out value; the injected transport is a function from
  the (header-decorated) request to either a transport error or a
  `Response`.
-/

namespace Cloud

/-- JSON documents, as produced by Go's `encoding/json` parser.  Numbers
are restricted to integers, which is all the error payload uses. -/
inductive Json where
  | null : Json
  | bool : Bool → Json
  | num : Int → Json
  | str : String → Json
  | arr : List Json → Json
  | obj : List (String × Json) → Json
deriving Repr

/-- Result of `json.Marshal`-style decoding of a response body.
`eof` is `io.EOF`: the decoder saw end of input before any value. -/
inductive DecodeErr where
  | eof : DecodeErr
  | other : String → DecodeErr
deriving Repr, DecidableEq

/-- A response body as seen by the JSON decoder: exactly empty (the
decoder reports `io.EOF`), malformed text (a syntax error), or a parsed
JSON document. -/
inductive Body where
  | empty : Body
  | malformed : String → Body
  | jsonVal : Json → Body
deriving Repr

/-- `json.NewDecoder(body).Decode(target)` where `dec` gives the
target type's decoding of a parsed JSON document. -/
def decodeBody (b : Body) (dec : Json → Except String α) : Except DecodeErr α :=
  match b with
  | Body.empty => Except.error DecodeErr.eof
  | Body.malformed raw => Except.error (DecodeErr.other ("invalid character in " ++ raw))
  | Body.jsonVal j =>
    match dec j with
    | Except.ok a => Except.ok a
    | Except.error e => Except.error (DecodeErr.other e)

/-- The anonymous struct `checkResponse` decodes the error body into:
`struct { ErrorData struct { Message string; Code int } }` with JSON keys
`error`, `message`, `code`.  Zero values are `""` and `0`. -/
structure ErrorData where
  message : String
  code : Int
deriving Repr, DecidableEq

/-- Decoding of the inner `{ "message": ..., "code": ... }` object, with
Go `encoding/json` semantics: fields are processed in order (later
duplicates overwrite), `null` leaves a field unchanged, unknown keys are
ignored, and a wrong-typed field is a decode error. -/
def decodeErrorFields (fields : List (String × Json)) (acc : ErrorData) :
    Except String ErrorData :=
  match fields with
  | [] => Except.ok acc
  | (k, v) :: rest =>
    if k = "message" then
      match v with
      | Json.str s => decodeErrorFields rest (ErrorData.mk s acc.code)
      | Json.null => decodeErrorFields rest acc
      | _ => Except.error "json: cannot unmarshal value into Go struct field .message of type string"
    else if k = "code" then
      match v with
      | Json.num n => decodeErrorFields rest (ErrorData.mk acc.message n)
      | Json.null => decodeErrorFields rest acc
      | _ => Except.error "json: cannot unmarshal value into Go struct field .code of type int"
    else
      decodeErrorFields rest acc

/-- Decoding of the inner error object: must be a JSON object (or `null`,
which leaves the zero value). -/
def decodeErrorData (j : Json) (acc : ErrorData) : Except String ErrorData :=
  match j with
  | Json.obj fields => decodeErrorFields fields acc
  | Json.null => Except.ok acc
  | _ => Except.error "json: cannot unmarshal value into Go struct field .error of type struct"

/-- Decoding of the top-level `{ "error": { "message": ..., "code": ... } }`
struct used by `checkResponse`. -/
def decodeErrorStruct (j : Json) : Except String ErrorData :=
  match j with
  | Json.obj fields =>
    match fields.find? (fun p => p.1 == "error") with
    | some p => decodeErrorData p.2 (ErrorData.mk "" 0)
    | none => Except.ok (ErrorData.mk "" 0)
  | Json.null => Except.ok (ErrorData.mk "" 0)
  | _ => Except.error "json: cannot unmarshal value into Go value of type struct"

/-- An HTTP response as classified by the client: the status code and the
body as the JSON decoder sees it.  (Whether the body's `Close` will fail
is an environment input of `Do`, not part of the response value.) -/
structure Response where
  statusCode : Int
  body : Body
deriving Repr

/-- The `error` values the client can return.  `notAuthenticated` and
`notAuthorized` are the package sentinels `ErrNotAuthenticated` and
`ErrNotAuthorized`; `errorResponse` is the `ErrorResponse` struct carrying
the original response reference plus message and code; `wrapped` is
`errors.Wrap(cause, msg)`; `transport` is an error from `c.client.Do`;
and `decodeError` is a non-`io.EOF` error from decoding a success body. -/
inductive ApiError where
  | transport : String → ApiError
  | notAuthenticated : ApiError
  | notAuthorized : ApiError
  | errorResponse : Response → String → Int → ApiError
  | wrapped : String → DecodeErr → ApiError
  | decodeError : String → ApiError
deriving Repr

/-- `true` on every error the client can produce except a success-path
decode error. -/
def ApiError.isPreDecode (e : ApiError) : Bool :=
  match e with
  | ApiError.decodeError _ => false
  | _ => true

/-- `checkResponse` from `client.go`: 2xx is success; 401 and 403 map to
the sentinels; otherwise the body is decoded as the error struct and the
result is either a wrapped "Non-standard API error response" or an
`ErrorResponse`.  `none` models a `nil` Go error. -/
def checkResponse (r : Response) : Option ApiError :=
  if 200 ≤ r.statusCode ∧ r.statusCode ≤ 299 then
    none
  else if r.statusCode = 401 then
    some ApiError.notAuthenticated
  else if r.statusCode = 403 then
    some ApiError.notAuthorized
  else
    match decodeBody r.body decodeErrorStruct with
    | Except.error e => some (ApiError.wrapped "Non-standard API error response" e)
    | Except.ok es => some (ApiError.errorResponse r es.message es.code)

/-- The client configuration stored by `NewClient` (the embedded
`http.Client` carries only the fixed timeout and is represented by
`TIMEOUT` below). -/
structure Client where
  token : String
  baseURL : String
  version : String
deriving Repr

/-- The fixed request timeout, in seconds (`TIMEOUT = 10 * time.Second`). -/
def TIMEOUT : Nat := 10

/-- `NewClient(token, host, version)`.  `hostEnv` is the value of
`os.Getenv("K6CLOUD_HOST")` (empty string when unset). -/
def NewClient (token host version hostEnv : String) : Client :=
  let host1 := if hostEnv ≠ "" then hostEnv else host
  let host2 := if host1 = "" then "https://ingest.loadimpact.com" else host1
  Client.mk token (host2 ++ "/v1") version

/-- Go canonicalizes header keys (`textproto.CanonicalMIMEHeaderKey`):
the first letter and every letter following a dash is upper-cased, the
rest lower-cased. -/
def canonicalKey (s : String) : String :=
  String.mk (s.data.foldl
    (fun (acc : List Char × Bool) c =>
      (acc.1 ++ [if acc.2 then c.toUpper else c.toLower], c = '-'))
    ([], true)).1

/-- Header maps, keyed by canonical MIME keys. -/
def Headers := List (String × String)

/-- `req.Header.Set(k, v)`: replaces any existing values stored under the
canonical form of `k` with the single value `v`. -/
def headerSet (hs : Headers) (k v : String) : Headers :=
  List.filter (fun p => !(p.1 == canonicalKey k)) hs ++ [(canonicalKey k, v)]

/-- `req.Header.Get(k)`: the first value stored under the canonical form
of `k`, if any. -/
def headerGet (hs : Headers) (k : String) : Option String :=
  Option.map Prod.snd (List.find? (fun p => p.1 == canonicalKey k) hs)

/-- An `http.Request`: method, target URL, headers, and a body that is
`none` exactly when the Go request body reader is `nil` and otherwise the
JSON document the body bytes serialize. -/
structure Request where
  method : String
  url : String
  headers : Headers
  body : Option Json

/-- A Go value passed as `data interface{}`: either a value that
`json.Marshal` serializes to the document `j`, or one it rejects (a
channel, function, or cyclic value), with the offending type in the
error message. -/
inductive GoVal where
  | json : Json → GoVal
  | unsupported : String → GoVal

/-- `json.Marshal(&data)` on the embedded Go values. -/
def marshal (v : GoVal) : Except String Json :=
  match v with
  | GoVal.json j => Except.ok j
  | GoVal.unsupported t => Except.error ("json: unsupported type: " ++ t)

/-- `(c *Client) NewRequest(method, url, data)`: `data = none` models a
`nil` interface value, giving a `nil` body; otherwise the value is
marshalled, a marshal failure aborting with that error.  (URL parsing by
`http.NewRequest` is treated as opaque: the URL is stored verbatim.) -/
def NewRequest (method url : String) (data : Option GoVal) : Except String Request :=
  match data with
  | none => Except.ok (Request.mk method url [] none)
  | some v =>
    match marshal v with
    | Except.error e => Except.error e
    | Except.ok j => Except.ok (Request.mk method url [] (some j))

/-- Observable actions of `Do`, in execution order: the three
`Header.Set` calls, the transport call, decoding into the caller's `v`
target, the deferred `resp.Body.Close()` (with whether it failed), and
the `log.Errorln` of a failed close. -/
inductive Event where
  | setHeader : String → String → Event
  | httpCall : Event
  | decodeOut : Event
  | closeBody : Bool → Event
  | logClose : String → Event
deriving Repr, DecidableEq

/-- `true` exactly on body-release events. -/
def Event.isClose (e : Event) : Bool :=
  match e with
  | Event.closeBody _ => true
  | _ => false

/-- The outcome of `Do`: the request actually handed to the transport
(headers included), the returned Go error (`none` = `nil`), the final
contents of the caller's decode target, and the event trace. -/
structure DoResult (α : Type) where
  sentReq : Request
  error : Option ApiError
  out : α
  trace : List Event

/-- The header mutation at the top of `Do`: the three `Header.Set` calls
applied to the caller's request. -/
def doHeaders (c : Client) (req : Request) : Request :=
  Request.mk req.method req.url
    (headerSet
      (headerSet
        (headerSet req.headers "Content-Type" "application/json")
        "Authorization" ("Token " ++ c.token))
      "User-Agent" ("k6cloud/" ++ c.version))
    req.body

/-- The events emitted before the transport answers: the three header
sets followed by the HTTP call itself. -/
def headerEvents (c : Client) : List Event :=
  [Event.setHeader "Content-Type" "application/json",
   Event.setHeader "Authorization" ("Token " ++ c.token),
   Event.setHeader "User-Agent" ("k6cloud/" ++ c.version),
   Event.httpCall]

/-- The events of the deferred `resp.Body.Close()`: one close, followed
by an error-log entry exactly when the close itself fails (`ce` is the
close error the body will report, `none` for a clean close). -/
def closeEvents (ce : Option String) : List Event :=
  match ce with
  | none => [Event.closeBody false]
  | some e => [Event.closeBody true, Event.logClose e]

/-- Body of `Do` after the transport returned a response: classify via
`checkResponse`; on success decode into `v` when it is non-nil, turning
`io.EOF` into a `nil` error.  Returns (Go error, final target contents,
events after the HTTP call).  The deferred close always runs last. -/
def doBody (resp : Response) (ce : Option String)
    (dec : Option (Json → Except String α)) (out0 : α) :
    Option ApiError × α × List Event :=
  match checkResponse resp with
  | some err => (some err, out0, closeEvents ce)
  | none =>
    match dec with
    | none => (none, out0, closeEvents ce)
    | some d =>
      match decodeBody resp.body d with
      | Except.ok a => (none, a, Event.decodeOut :: closeEvents ce)
      | Except.error DecodeErr.eof => (none, out0, Event.decodeOut :: closeEvents ce)
      | Except.error (DecodeErr.other e) =>
        (some (ApiError.decodeError e), out0, Event.decodeOut :: closeEvents ce)

/-- `(c *Client) Do(req, v)`.  `transport` is `c.client.Do`; `ce` says
whether the response body's `Close` will fail; `dec` is `none` when `v`
is `nil` and otherwise the JSON decoding of the target type, whose prior
contents are `out0`.  Mirrors `client.go`: set the three headers, perform
the call (a transport error returns immediately, before any body exists
to close), then run the classify/decode body with the deferred close. -/
def Do (c : Client) (req : Request) (transport : Request → Except String Response)
    (ce : Option String) (dec : Option (Json → Except String α)) (out0 : α) :
    DoResult α :=
  match transport (doHeaders c req) with
  | Except.error e =>
    DoResult.mk (doHeaders c req) (some (ApiError.transport e)) out0 (headerEvents c)
  | Except.ok resp =>
    DoResult.mk (doHeaders c req) (doBody resp ce dec out0).1
      (doBody resp ce dec out0).2.1
      (headerEvents c ++ (doBody resp ce dec out0).2.2)

/-! Helper lemmas about the embedding, shared by the claim theorems. -/

lemma checkResponse_2xx (r : Response) (h1 : 200 ≤ r.statusCode)
    (h2 : r.statusCode ≤ 299) : checkResponse r = none := by
  unfold checkResponse
  rw [if_pos ⟨h1, h2⟩]

lemma checkResponse_other (r : Response)
    (hs : ¬(200 ≤ r.statusCode ∧ r.statusCode ≤ 299))
    (h1 : r.statusCode ≠ 401) (h2 : r.statusCode ≠ 403) :
    checkResponse r =
      (match decodeBody r.body decodeErrorStruct with
        | Except.error e => some (ApiError.wrapped "Non-standard API error response" e)
        | Except.ok es => some (ApiError.errorResponse r es.message es.code)) := by
  unfold checkResponse
  rw [if_neg hs, if_neg h1, if_neg h2]

lemma Do_transport_error {α : Type} (c : Client) (req : Request)
    (transport : Request → Except String Response) (ce : Option String)
    (dec : Option (Json → Except String α)) (out0 : α) (e : String)
    (h : transport (doHeaders c req) = Except.error e) :
    Do c req transport ce dec out0 =
      DoResult.mk (doHeaders c req) (some (ApiError.transport e)) out0 (headerEvents c) := by
  unfold Do
  rw [h]

lemma Do_transport_ok {α : Type} (c : Client) (req : Request)
    (transport : Request → Except String Response) (ce : Option String)
    (dec : Option (Json → Except String α)) (out0 : α) (resp : Response)
    (h : transport (doHeaders c req) = Except.ok resp) :
    Do c req transport ce dec out0 =
      DoResult.mk (doHeaders c req) (doBody resp ce dec out0).1
        (doBody resp ce dec out0).2.1
        (headerEvents c ++ (doBody resp ce dec out0).2.2) := by
  unfold Do
  rw [h]

lemma doBody_check_some {α : Type} (resp : Response) (ce : Option String)
    (dec : Option (Json → Except String α)) (out0 : α) (err : ApiError)
    (h : checkResponse resp = some err) :
    doBody resp ce dec out0 = (some err, out0, closeEvents ce) := by
  unfold doBody
  rw [h]

lemma doBody_check_none_nildec {α : Type} (resp : Response) (ce : Option String)
    (out0 : α) (h : checkResponse resp = none) :
    doBody resp ce (none : Option (Json → Except String α)) out0 =
      (none, out0, closeEvents ce) := by
  unfold doBody
  rw [h]

lemma doBody_check_none_dec {α : Type} (resp : Response) (ce : Option String)
    (d : Json → Except String α) (out0 : α) (h : checkResponse resp = none) :
    doBody resp ce (some d) out0 =
      (match decodeBody resp.body d with
        | Except.ok a => (none, a, Event.decodeOut :: closeEvents ce)
        | Except.error DecodeErr.eof => (none, out0, Event.decodeOut :: closeEvents ce)
        | Except.error (DecodeErr.other e) =>
          (some (ApiError.decodeError e), out0, Event.decodeOut :: closeEvents ce)) := by
  unfold doBody
  rw [h]
  rfl

lemma find?_filter_append_self (hs : List (String × String)) (ck v : String) :
    List.find? (fun p => p.1 == ck)
      (List.filter (fun p => !(p.1 == ck)) hs ++ [(ck, v)]) = some (ck, v) := by
  induction hs with
  | nil => simp [List.find?_cons]
  | cons a t ih =>
    cases hb : (a.1 == ck) with
    | true =>
      rw [List.filter_cons]
      rw [show (!(a.1 == ck)) = false by rw [hb]; rfl]
      simp only [if_neg Bool.false_ne_true, ih]
    | false =>
      have hbn : (!(a.1 == ck)) = true := by
        rw [hb]
        rfl
      simp only [List.filter_cons, hbn, if_true, List.cons_append, List.find?_cons]
      rw [hb]
      exact ih

lemma find?_filter_append_other (hs : List (String × String)) (ck ck' v : String)
    (h : ck' ≠ ck) :
    List.find? (fun p => p.1 == ck')
        (List.filter (fun p => !(p.1 == ck)) hs ++ [(ck, v)]) =
      List.find? (fun p => p.1 == ck') hs := by
  have hck : (ck == ck') = false := beq_eq_false_iff_ne.mpr (Ne.symm h)
  induction hs with
  | nil => simp [List.find?_cons, hck]
  | cons a t ih =>
    cases hb : (a.1 == ck) with
    | true =>
      have ha : a.1 = ck := eq_of_beq hb
      have hb2 : (a.1 == ck') = false := by
        rw [ha]
        exact hck
      rw [List.filter_cons]
      rw [show (!(a.1 == ck)) = false by rw [hb]; rfl]
      simp only [if_neg Bool.false_ne_true, List.find?_cons, hb2, ih]
    | false =>
      have hbn : (!(a.1 == ck)) = true := by
        rw [hb]
        rfl
      simp only [List.filter_cons, hbn, if_true, List.cons_append, List.find?_cons]
      cases hb2 : (a.1 == ck') <;> simp [hb2, ih]

lemma headerGet_set_same (hs : Headers) (k v : String) :
    headerGet (headerSet hs k v) k = some v := by
  unfold headerGet headerSet
  rw [find?_filter_append_self]
  rfl

lemma headerGet_set_other (hs : Headers) (k k' v : String)
    (h : canonicalKey k' ≠ canonicalKey k) :
    headerGet (headerSet hs k v) k' = headerGet hs k' := by
  unfold headerGet headerSet
  rw [find?_filter_append_other _ _ _ _ h]

lemma canonicalKey_contentType : canonicalKey "Content-Type" = "Content-Type" := rfl

lemma canonicalKey_authorization : canonicalKey "Authorization" = "Authorization" := rfl

lemma canonicalKey_userAgent : canonicalKey "User-Agent" = "User-Agent" := rfl

/-! The claim theorems. -/

/-- C1: for every response with status code in [200,299], classification
(`checkResponse`) yields success regardless of the body content, the call
returns no error, and when the decode target `out` is nil (`dec = none`)
no decode of the body into it is ever attempted. -/
theorem c1_two_xx_success_and_nil_out_never_decodes {α : Type} (c : Client)
    (req : Request) (resp : Response) (ce : Option String) (out0 : α)
    (h1 : 200 ≤ resp.statusCode) (h2 : resp.statusCode ≤ 299) :
    checkResponse resp = none ∧
    (Do c req (fun _ => Except.ok resp) ce
      (none : Option (Json → Except String α)) out0).error = none ∧
    Event.decodeOut ∉ (Do c req (fun _ => Except.ok resp) ce
      (none : Option (Json → Except String α)) out0).trace := by
  have hcr := checkResponse_2xx resp h1 h2
  have hdo := Do_transport_ok c req (fun _ => Except.ok resp) ce
    (none : Option (Json → Except String α)) out0 resp rfl
  rw [doBody_check_none_nildec resp ce out0 hcr] at hdo
  refine ⟨hcr, ?_, ?_⟩
  · rw [hdo]
  · rw [hdo]
    cases ce <;> simp [headerEvents, closeEvents]

/-- C1 witness: a 204 response with a malformed body and a nil target
yields no error and no decode attempt. -/
theorem c1_two_xx_success_and_nil_out_never_decodes_witness :
    checkResponse (Response.mk 204 (Body.malformed "junk")) = none ∧
    (Do (Client.mk "tok" "https://ingest.loadimpact.com/v1" "1.0")
      (Request.mk "GET" "u" [] none)
      (fun _ => Except.ok (Response.mk 204 (Body.malformed "junk"))) none
      (none : Option (Json → Except String Nat)) 0).error = none ∧
    Event.decodeOut ∉ (Do (Client.mk "tok" "https://ingest.loadimpact.com/v1" "1.0")
      (Request.mk "GET" "u" [] none)
      (fun _ => Except.ok (Response.mk 204 (Body.malformed "junk"))) none
      (none : Option (Json → Except String Nat)) 0).trace :=
  c1_two_xx_success_and_nil_out_never_decodes
    (Client.mk "tok" "https://ingest.loadimpact.com/v1" "1.0")
    (Request.mk "GET" "u" [] none) (Response.mk 204 (Body.malformed "junk"))
    none 0 (by decide) (by decide)

/-- C2: a 401 response fails with exactly the `NotAuthenticated` sentinel
and a 403 response with exactly the `NotAuthorized` sentinel, whatever
the body, the close behaviour and the decode target. -/
theorem c2_sentinel_errors_401_403 {α : Type} (c : Client) (req : Request)
    (b : Body) (ce : Option String) (dec : Option (Json → Except String α))
    (out0 : α) :
    (Do c req (fun _ => Except.ok (Response.mk 401 b)) ce dec out0).error =
      some ApiError.notAuthenticated ∧
    (Do c req (fun _ => Except.ok (Response.mk 403 b)) ce dec out0).error =
      some ApiError.notAuthorized := by
  have h401 : checkResponse (Response.mk 401 b) = some ApiError.notAuthenticated := by
    simp [checkResponse]
  have h403 : checkResponse (Response.mk 403 b) = some ApiError.notAuthorized := by
    simp [checkResponse]
  constructor
  · rw [Do_transport_ok c req (fun _ => Except.ok (Response.mk 401 b)) ce dec out0
      (Response.mk 401 b) rfl, doBody_check_some _ _ _ _ _ h401]
  · rw [Do_transport_ok c req (fun _ => Except.ok (Response.mk 403 b)) ce dec out0
      (Response.mk 403 b) rfl, doBody_check_some _ _ _ _ _ h403]

/-- C3: on a status outside [200,299] other than 401/403, a body decoding
as the error struct makes the call fail with an `ErrorResponse` carrying
the original response, its message and its code; and a payload whose
`message`/`code` fields are absent decodes to the defaults `""` and `0`. -/
theorem c3_structured_error_response {α : Type} (c : Client) (req : Request)
    (resp : Response) (ce : Option String) (dec : Option (Json → Except String α))
    (out0 : α) (m : String) (cd : Int)
    (hs : ¬(200 ≤ resp.statusCode ∧ resp.statusCode ≤ 299))
    (h401 : resp.statusCode ≠ 401) (h403 : resp.statusCode ≠ 403)
    (hdec : decodeBody resp.body decodeErrorStruct = Except.ok (ErrorData.mk m cd)) :
    (Do c req (fun _ => Except.ok resp) ce dec out0).error =
      some (ApiError.errorResponse resp m cd) ∧
    decodeErrorStruct (Json.obj [("error", Json.obj [])]) =
      Except.ok (ErrorData.mk "" 0) := by
  have hcr : checkResponse resp = some (ApiError.errorResponse resp m cd) := by
    rw [checkResponse_other resp hs h401 h403, hdec]
  constructor
  · rw [Do_transport_ok c req (fun _ => Except.ok resp) ce dec out0 resp rfl,
      doBody_check_some _ _ _ _ _ hcr]
  · rfl

/-- C3 witness: a 500 response with body
`{"error":{"message":"m","code":7}}` fails with the `ErrorResponse`
carrying message `"m"` and code `7`. -/
theorem c3_structured_error_response_witness :
    (Do (Client.mk "tok" "b" "1.0") (Request.mk "GET" "u" [] none)
      (fun _ => Except.ok (Response.mk 500 (Body.jsonVal (Json.obj
        [("error", Json.obj [("message", Json.str "m"), ("code", Json.num 7)])]))))
      none (none : Option (Json → Except String Nat)) 0).error =
      some (ApiError.errorResponse (Response.mk 500 (Body.jsonVal (Json.obj
        [("error", Json.obj [("message", Json.str "m"), ("code", Json.num 7)])]))) "m" 7) ∧
    decodeErrorStruct (Json.obj [("error", Json.obj [])]) =
      Except.ok (ErrorData.mk "" 0) :=
  c3_structured_error_response (Client.mk "tok" "b" "1.0")
    (Request.mk "GET" "u" [] none)
    (Response.mk 500 (Body.jsonVal (Json.obj
      [("error", Json.obj [("message", Json.str "m"), ("code", Json.num 7)])])))
    none (none : Option (Json → Except String Nat)) 0 "m" 7
    (by decide) (by decide) (by decide) rfl

/-- C4: on a status outside [200,299] other than 401/403, a body that
does not decode as the error struct makes the call fail with the wrapped
"Non-standard API error response" error carrying the decode error as its
cause, and that error is distinct from every `ErrorResponse`. -/
theorem c4_nonstandard_error_wrap {α : Type} (c : Client) (req : Request)
    (resp : Response) (ce : Option String) (dec : Option (Json → Except String α))
    (out0 : α) (e : DecodeErr)
    (hs : ¬(200 ≤ resp.statusCode ∧ resp.statusCode ≤ 299))
    (h401 : resp.statusCode ≠ 401) (h403 : resp.statusCode ≠ 403)
    (hdec : decodeBody resp.body decodeErrorStruct = Except.error e) :
    (Do c req (fun _ => Except.ok resp) ce dec out0).error =
      some (ApiError.wrapped "Non-standard API error response" e) ∧
    (∀ (r : Response) (m : String) (cd : Int),
      ApiError.wrapped "Non-standard API error response" e ≠
        ApiError.errorResponse r m cd) := by
  have hcr : checkResponse resp =
      some (ApiError.wrapped "Non-standard API error response" e) := by
    rw [checkResponse_other resp hs h401 h403, hdec]
  constructor
  · rw [Do_transport_ok c req (fun _ => Except.ok resp) ce dec out0 resp rfl,
      doBody_check_some _ _ _ _ _ hcr]
  · intro r m cd hcontra
    exact ApiError.noConfusion hcontra

/-- C4 witness: a 500 response with a malformed (plain-text) body fails
with the wrapped non-standard error preserving the decode error. -/
theorem c4_nonstandard_error_wrap_witness :
    (Do (Client.mk "tok" "b" "1.0") (Request.mk "GET" "u" [] none)
      (fun _ => Except.ok (Response.mk 500 (Body.malformed "oops"))) none
      (none : Option (Json → Except String Nat)) 0).error =
      some (ApiError.wrapped "Non-standard API error response"
        (DecodeErr.other "invalid character in oops")) ∧
    (∀ (r : Response) (m : String) (cd : Int),
      ApiError.wrapped "Non-standard API error response"
          (DecodeErr.other "invalid character in oops") ≠
        ApiError.errorResponse r m cd) :=
  c4_nonstandard_error_wrap (Client.mk "tok" "b" "1.0")
    (Request.mk "GET" "u" [] none) (Response.mk 500 (Body.malformed "oops"))
    none (none : Option (Json → Except String Nat)) 0
    (DecodeErr.other "invalid character in oops")
    (by decide) (by decide) (by decide) rfl

/-- C5: host resolution in `NewClient`: a non-empty `K6CLOUD_HOST`
override wins over the host argument, an empty override falls back to the
host argument, both empty fall back to the default ingestion host, and
the base URL is always the resolved host with `/v1` appended. -/
theorem c5_host_resolution (token host version hostEnv : String) :
    (hostEnv ≠ "" →
      (NewClient token host version hostEnv).baseURL = hostEnv ++ "/v1") ∧
    (hostEnv = "" → host ≠ "" →
      (NewClient token host version hostEnv).baseURL = host ++ "/v1") ∧
    (hostEnv = "" → host = "" →
      (NewClient token host version hostEnv).baseURL =
        "https://ingest.loadimpact.com/v1") := by
  refine ⟨?_, ?_, ?_⟩
  · intro h
    simp [NewClient, h]
  · intro h1 h2
    simp [NewClient, h1, h2]
  · intro h1 h2
    simp [NewClient, h1, h2]

/-- C5 witness: `K6CLOUD_HOST=https://example.test` with an empty host
argument gives `https://example.test/v1`; with neither set the base URL
is `https://ingest.loadimpact.com/v1`; with only a host argument the
argument is used. -/
theorem c5_host_resolution_witness :
    (NewClient "t" "" "v" "https://example.test").baseURL =
      "https://example.test/v1" ∧
    (NewClient "t" "" "v" "").baseURL = "https://ingest.loadimpact.com/v1" ∧
    (NewClient "t" "https://a.b" "v" "").baseURL = "https://a.b/v1" :=
  ⟨(c5_host_resolution "t" "" "v" "https://example.test").1 (by decide),
   (c5_host_resolution "t" "" "v" "").2.2 rfl rfl,
   (c5_host_resolution "t" "https://a.b" "v" "").2.1 rfl (by decide)⟩

lemma Do_sentReq {α : Type} (c : Client) (req : Request)
    (transport : Request → Except String Response) (ce : Option String)
    (dec : Option (Json → Except String α)) (out0 : α) :
    (Do c req transport ce dec out0).sentReq = doHeaders c req := by
  unfold Do
  cases transport (doHeaders c req) <;> rfl

lemma Do_trace_take_four {α : Type} (c : Client) (req : Request)
    (transport : Request → Except String Response) (ce : Option String)
    (dec : Option (Json → Except String α)) (out0 : α) :
    (Do c req transport ce dec out0).trace.take 4 = headerEvents c := by
  unfold Do
  cases transport (doHeaders c req) with
  | error e => rfl
  | ok resp =>
    show (headerEvents c ++ _).take 4 = headerEvents c
    simp [headerEvents, List.take_succ_cons, List.take_zero, List.cons_append]

/-- C6: every executed request carries exactly the three mandated header
mutations, performed before the HTTP call (the first four trace events
are the three sets followed by the call), overwriting caller-set values:
`Content-Type: application/json`, `Authorization: Token {token}` and
`User-Agent: k6cloud/{version}`; every other header is left untouched. -/
theorem c6_three_headers_set_before_call {α : Type} (c : Client) (req : Request)
    (transport : Request → Except String Response) (ce : Option String)
    (dec : Option (Json → Except String α)) (out0 : α) :
    (Do c req transport ce dec out0).trace.take 4 =
      [Event.setHeader "Content-Type" "application/json",
       Event.setHeader "Authorization" ("Token " ++ c.token),
       Event.setHeader "User-Agent" ("k6cloud/" ++ c.version),
       Event.httpCall] ∧
    headerGet (Do c req transport ce dec out0).sentReq.headers "Content-Type" =
      some "application/json" ∧
    headerGet (Do c req transport ce dec out0).sentReq.headers "Authorization" =
      some ("Token " ++ c.token) ∧
    headerGet (Do c req transport ce dec out0).sentReq.headers "User-Agent" =
      some ("k6cloud/" ++ c.version) ∧
    (∀ k : String, canonicalKey k ≠ "Content-Type" →
      canonicalKey k ≠ "Authorization" → canonicalKey k ≠ "User-Agent" →
      headerGet (Do c req transport ce dec out0).sentReq.headers k =
        headerGet req.headers k) := by
  have hsr := Do_sentReq c req transport ce dec out0
  refine ⟨Do_trace_take_four c req transport ce dec out0, ?_, ?_, ?_, ?_⟩
  · rw [hsr]
    show headerGet (headerSet (headerSet (headerSet req.headers
      "Content-Type" "application/json") "Authorization" ("Token " ++ c.token))
      "User-Agent" ("k6cloud/" ++ c.version)) "Content-Type" = some "application/json"
    rw [headerGet_set_other _ _ _ _ (by decide), headerGet_set_other _ _ _ _ (by decide)]
    exact headerGet_set_same _ _ _
  · rw [hsr]
    show headerGet (headerSet (headerSet (headerSet req.headers
      "Content-Type" "application/json") "Authorization" ("Token " ++ c.token))
      "User-Agent" ("k6cloud/" ++ c.version)) "Authorization" = some ("Token " ++ c.token)
    rw [headerGet_set_other _ _ _ _ (by decide)]
    exact headerGet_set_same _ _ _
  · rw [hsr]
    exact headerGet_set_same _ _ _
  · intro k hk1 hk2 hk3
    rw [hsr]
    show headerGet (headerSet (headerSet (headerSet req.headers
      "Content-Type" "application/json") "Authorization" ("Token " ++ c.token))
      "User-Agent" ("k6cloud/" ++ c.version)) k = headerGet req.headers k
    rw [headerGet_set_other _ _ _ _ (by rw [canonicalKey_userAgent]; exact hk3),
      headerGet_set_other _ _ _ _ (by rw [canonicalKey_authorization]; exact hk2),
      headerGet_set_other _ _ _ _ (by rw [canonicalKey_contentType]; exact hk1)]

/-- C6 witness: at a concrete call, the trace starts with the three sets
and the call, the mandated headers carry the mandated values (a caller
set `Content-Type` is overwritten), and an unrelated caller header
survives untouched. -/
theorem c6_three_headers_set_before_call_witness :
    (Do (Client.mk "tok" "b" "1.0")
      (Request.mk "GET" "u" [("Content-Type", "text/plain"), ("X-Custom", "y")] none)
      (fun _ => Except.ok (Response.mk 200 Body.empty)) none
      (none : Option (Json → Except String Nat)) 0).trace.take 4 =
      [Event.setHeader "Content-Type" "application/json",
       Event.setHeader "Authorization" "Token tok",
       Event.setHeader "User-Agent" "k6cloud/1.0",
       Event.httpCall] ∧
    headerGet (Do (Client.mk "tok" "b" "1.0")
      (Request.mk "GET" "u" [("Content-Type", "text/plain"), ("X-Custom", "y")] none)
      (fun _ => Except.ok (Response.mk 200 Body.empty)) none
      (none : Option (Json → Except String Nat)) 0).sentReq.headers "Content-Type" =
      some "application/json" ∧
    headerGet (Do (Client.mk "tok" "b" "1.0")
      (Request.mk "GET" "u" [("Content-Type", "text/plain"), ("X-Custom", "y")] none)
      (fun _ => Except.ok (Response.mk 200 Body.empty)) none
      (none : Option (Json → Except String Nat)) 0).sentReq.headers "X-Custom" =
      headerGet [("Content-Type", "text/plain"), ("X-Custom", "y")] "X-Custom" := by
  refine ⟨?_, ?_, ?_⟩
  · exact (c6_three_headers_set_before_call (Client.mk "tok" "b" "1.0")
      (Request.mk "GET" "u" [("Content-Type", "text/plain"), ("X-Custom", "y")] none)
      (fun _ => Except.ok (Response.mk 200 Body.empty)) none
      (none : Option (Json → Except String Nat)) 0).1
  · exact (c6_three_headers_set_before_call (Client.mk "tok" "b" "1.0")
      (Request.mk "GET" "u" [("Content-Type", "text/plain"), ("X-Custom", "y")] none)
      (fun _ => Except.ok (Response.mk 200 Body.empty)) none
      (none : Option (Json → Except String Nat)) 0).2.1
  · exact (c6_three_headers_set_before_call (Client.mk "tok" "b" "1.0")
      (Request.mk "GET" "u" [("Content-Type", "text/plain"), ("X-Custom", "y")] none)
      (fun _ => Except.ok (Response.mk 200 Body.empty)) none
      (none : Option (Json → Except String Nat)) 0).2.2.2.2 "X-Custom"
      (by decide) (by decide) (by decide)

/-- C7: `NewRequest` builds a request with a nil body when `data` is nil
(no empty JSON object is sent), uses the JSON serialization of a non-nil
`data` as the body, and fails with the serialization error (producing no
request) when the value cannot be marshalled. -/
theorem c7_new_request_body_and_serialization (method url : String) :
    NewRequest method url none = Except.ok (Request.mk method url [] none) ∧
    (∀ (d : GoVal) (j : Json), marshal d = Except.ok j →
      NewRequest method url (some d) = Except.ok (Request.mk method url [] (some j))) ∧
    (∀ (d : GoVal) (e : String), marshal d = Except.error e →
      NewRequest method url (some d) = Except.error e) := by
  have hred : ∀ d : GoVal, NewRequest method url (some d) =
      (match marshal d with
        | Except.error e2 => Except.error e2
        | Except.ok j2 => Except.ok (Request.mk method url [] (some j2))) :=
    fun _ => rfl
  refine ⟨rfl, ?_, ?_⟩
  · intro d j h
    rw [hred d, h]
  · intro d e h
    rw [hred d, h]

/-- C7 witness: at concrete inputs, a nil `data` gives a nil body, a
marshallable value becomes the JSON body, and an unsupported value fails
with the serialization error. -/
theorem c7_new_request_body_and_serialization_witness :
    NewRequest "POST" "u" none = Except.ok (Request.mk "POST" "u" [] none) ∧
    NewRequest "POST" "u" (some (GoVal.json (Json.num 3))) =
      Except.ok (Request.mk "POST" "u" [] (some (Json.num 3))) ∧
    NewRequest "POST" "u" (some (GoVal.unsupported "chan int")) =
      Except.error "json: unsupported type: chan int" :=
  ⟨(c7_new_request_body_and_serialization "POST" "u").1,
   (c7_new_request_body_and_serialization "POST" "u").2.1
     (GoVal.json (Json.num 3)) (Json.num 3) rfl,
   (c7_new_request_body_and_serialization "POST" "u").2.2
     (GoVal.unsupported "chan int") "json: unsupported type: chan int" rfl⟩

/-- C8: on a 2xx response with a non-nil decode target, an exactly-empty
body (the decoder's end-of-input case, `io.EOF`) is success with no error
and leaves the target unmodified, while every other decode failure is
surfaced to the caller as a hard decode error. -/
theorem c8_success_decode_empty_body_benign {α : Type} (c : Client) (req : Request)
    (resp : Response) (ce : Option String) (d : Json → Except String α) (out0 : α)
    (h1 : 200 ≤ resp.statusCode) (h2 : resp.statusCode ≤ 299) :
    (resp.body = Body.empty →
      (Do c req (fun _ => Except.ok resp) ce (some d) out0).error = none ∧
      (Do c req (fun _ => Except.ok resp) ce (some d) out0).out = out0) ∧
    (∀ e : String, decodeBody resp.body d = Except.error (DecodeErr.other e) →
      (Do c req (fun _ => Except.ok resp) ce (some d) out0).error =
        some (ApiError.decodeError e)) := by
  have hcr := checkResponse_2xx resp h1 h2
  have hdo := Do_transport_ok c req (fun _ => Except.ok resp) ce (some d) out0 resp rfl
  rw [doBody_check_none_dec resp ce d out0 hcr] at hdo
  constructor
  · intro hb
    rw [hb] at hdo
    rw [show decodeBody Body.empty d = Except.error DecodeErr.eof from rfl] at hdo
    rw [hdo]
    exact ⟨rfl, rfl⟩
  · intro e hdec
    rw [hdec] at hdo
    rw [hdo]

/-- C8 witness: a 200 response with an empty body decodes to success
leaving the target at its prior value 5, while a 200 response with a
malformed body fails with the decode error. -/
theorem c8_success_decode_empty_body_benign_witness :
    ((Do (Client.mk "tok" "b" "1.0") (Request.mk "GET" "u" [] none)
      (fun _ => Except.ok (Response.mk 200 Body.empty)) none
      (some (fun _ => Except.ok (0 : Nat))) 5).error = none ∧
     (Do (Client.mk "tok" "b" "1.0") (Request.mk "GET" "u" [] none)
      (fun _ => Except.ok (Response.mk 200 Body.empty)) none
      (some (fun _ => Except.ok (0 : Nat))) 5).out = 5) ∧
    (Do (Client.mk "tok" "b" "1.0") (Request.mk "GET" "u" [] none)
      (fun _ => Except.ok (Response.mk 200 (Body.malformed "oops"))) none
      (some (fun _ => Except.ok (0 : Nat))) 5).error =
      some (ApiError.decodeError "invalid character in oops") :=
  ⟨(c8_success_decode_empty_body_benign (Client.mk "tok" "b" "1.0")
      (Request.mk "GET" "u" [] none) (Response.mk 200 Body.empty) none
      (fun _ => Except.ok (0 : Nat)) 5 (by decide) (by decide)).1 rfl,
   (c8_success_decode_empty_body_benign (Client.mk "tok" "b" "1.0")
      (Request.mk "GET" "u" [] none) (Response.mk 200 (Body.malformed "oops")) none
      (fun _ => Except.ok (0 : Nat)) 5 (by decide) (by decide)).2
      "invalid character in oops" rfl⟩

lemma doBody_trace_cases {α : Type} (resp : Response) (ce : Option String)
    (dec : Option (Json → Except String α)) (out0 : α) :
    (doBody resp ce dec out0).2.2 = closeEvents ce ∨
    (doBody resp ce dec out0).2.2 = Event.decodeOut :: closeEvents ce := by
  cases hcr : checkResponse resp with
  | some err =>
    rw [doBody_check_some _ _ _ _ _ hcr]
    exact Or.inl rfl
  | none =>
    cases dec with
    | none =>
      rw [doBody_check_none_nildec _ _ _ hcr]
      exact Or.inl rfl
    | some d =>
      rw [doBody_check_none_dec _ _ _ _ hcr]
      cases hdb : decodeBody resp.body d with
      | ok a => exact Or.inr rfl
      | error er =>
        cases er with
        | eof => exact Or.inr rfl
        | other e2 => exact Or.inr rfl

lemma doBody_outcome_ce_independent {α : Type} (resp : Response)
    (dec : Option (Json → Except String α)) (out0 : α) (ce ce' : Option String) :
    (doBody resp ce dec out0).1 = (doBody resp ce' dec out0).1 ∧
    (doBody resp ce dec out0).2.1 = (doBody resp ce' dec out0).2.1 := by
  cases hcr : checkResponse resp with
  | some err =>
    rw [doBody_check_some _ _ _ _ _ hcr, doBody_check_some _ _ _ _ _ hcr]
    exact ⟨rfl, rfl⟩
  | none =>
    cases dec with
    | none =>
      rw [doBody_check_none_nildec _ _ _ hcr, doBody_check_none_nildec _ _ _ hcr]
      exact ⟨rfl, rfl⟩
    | some d =>
      rw [doBody_check_none_dec _ _ _ _ hcr, doBody_check_none_dec _ _ _ _ hcr]
      cases hdb : decodeBody resp.body d with
      | ok a => exact ⟨rfl, rfl⟩
      | error er =>
        cases er with
        | eof => exact ⟨rfl, rfl⟩
        | other e2 => exact ⟨rfl, rfl⟩

lemma countP_isClose_headerEvents (c : Client) :
    (headerEvents c).countP Event.isClose = 0 := rfl

lemma countP_isClose_closeEvents (ce : Option String) :
    (closeEvents ce).countP Event.isClose = 1 := by
  cases ce <;> rfl

/-- C9: whenever a response is received the body is released exactly once
(one close event per trace), as the last action before returning; a close
failure is logged and never changes the call's error or its decoded
output; and when the transport itself fails (no response received) there
is nothing to close. -/
theorem c9_body_released_exactly_once {α : Type} (c : Client) (req : Request)
    (resp : Response) (ce : Option String) (e te : String)
    (dec : Option (Json → Except String α)) (out0 : α) :
    (Do c req (fun _ => Except.ok resp) ce dec out0).trace.countP Event.isClose = 1 ∧
    (Do c req (fun _ => Except.ok resp) (some e) dec out0).error =
      (Do c req (fun _ => Except.ok resp) none dec out0).error ∧
    (Do c req (fun _ => Except.ok resp) (some e) dec out0).out =
      (Do c req (fun _ => Except.ok resp) none dec out0).out ∧
    Event.logClose e ∈ (Do c req (fun _ => Except.ok resp) (some e) dec out0).trace ∧
    (Do c req (fun _ => Except.ok resp) none dec out0).trace.getLast? =
      some (Event.closeBody false) ∧
    (Do c req (fun _ => Except.error te) ce dec out0).trace.countP Event.isClose = 0 := by
  have hdoC := Do_transport_ok c req (fun _ => Except.ok resp) ce dec out0 resp rfl
  have hdoS := Do_transport_ok c req (fun _ => Except.ok resp) (some e) dec out0 resp rfl
  have hdoN := Do_transport_ok c req (fun _ => Except.ok resp) none dec out0 resp rfl
  have hdoE := Do_transport_error c req (fun _ => Except.error te) ce dec out0 te rfl
  refine ⟨?_, ?_, ?_, ?_, ?_, ?_⟩
  · rw [hdoC]
    show ((headerEvents c ++ (doBody resp ce dec out0).2.2).countP Event.isClose) = 1
    rw [List.countP_append, countP_isClose_headerEvents]
    rcases doBody_trace_cases resp ce dec out0 with h | h <;> rw [h]
    · rw [countP_isClose_closeEvents]
    · rw [List.countP_cons_of_neg _ _ (by simp [Event.isClose]),
        countP_isClose_closeEvents]
  · rw [hdoS, hdoN]
    exact (doBody_outcome_ce_independent resp dec out0 (some e) none).1
  · rw [hdoS, hdoN]
    exact (doBody_outcome_ce_independent resp dec out0 (some e) none).2
  · rw [hdoS]
    show Event.logClose e ∈ headerEvents c ++ (doBody resp (some e) dec out0).2.2
    rcases doBody_trace_cases resp (some e) dec out0 with h | h <;> rw [h] <;>
      simp [headerEvents, closeEvents]
  · rw [hdoN]
    show (headerEvents c ++ (doBody resp none dec out0).2.2).getLast? =
      some (Event.closeBody false)
    rcases doBody_trace_cases resp none dec out0 with h | h <;> rw [h]
    · rw [show closeEvents none = [Event.closeBody false] from rfl,
        List.getLast?_append_cons]
      rfl
    · rw [show closeEvents none = [Event.closeBody false] from rfl,
        List.getLast?_append_cons]
      rfl
  · rw [hdoE]
    exact countP_isClose_headerEvents c

/-- C10: on every failing call whose error precedes success-path decoding
(a transport error, a 401/403 sentinel, a structured `ErrorResponse`, or
the non-standard wrap), the caller's decode target is left exactly as
passed and no decode into it was attempted. -/
theorem c10_error_paths_never_write_out {α : Type} (c : Client) (req : Request)
    (transport : Request → Except String Response) (ce : Option String)
    (dec : Option (Json → Except String α)) (out0 : α) (err : ApiError)
    (herr : (Do c req transport ce dec out0).error = some err)
    (hpre : err.isPreDecode = true) :
    (Do c req transport ce dec out0).out = out0 ∧
    Event.decodeOut ∉ (Do c req transport ce dec out0).trace := by
  cases htr : transport (doHeaders c req) with
  | error e =>
    have hdo := Do_transport_error c req transport ce dec out0 e htr
    rw [hdo]
    constructor
    · rfl
    · simp [headerEvents]
  | ok resp =>
    have hdo := Do_transport_ok c req transport ce dec out0 resp htr
    rw [hdo] at herr
    rw [hdo]
    cases hcr : checkResponse resp with
    | some e0 =>
      rw [doBody_check_some _ _ _ _ _ hcr]
      constructor
      · rfl
      · show Event.decodeOut ∉ headerEvents c ++ closeEvents ce
        cases ce <;> simp [headerEvents, closeEvents]
    | none =>
      cases dec with
      | none =>
        rw [doBody_check_none_nildec _ _ _ hcr]
        constructor
        · rfl
        · show Event.decodeOut ∉ headerEvents c ++ closeEvents ce
          cases ce <;> simp [headerEvents, closeEvents]
      | some d =>
        rw [doBody_check_none_dec _ _ _ _ hcr] at herr
        cases hdb : decodeBody resp.body d with
        | ok a =>
          rw [hdb] at herr
          exact absurd herr (by simp)
        | error er =>
          cases er with
          | eof =>
            rw [hdb] at herr
            exact absurd herr (by simp)
          | other e2 =>
            rw [hdb] at herr
            have he : err = ApiError.decodeError e2 := by
              have := Option.some.inj herr
              exact this.symm
            rw [he] at hpre
            exact absurd hpre (by simp [ApiError.isPreDecode])

/-- C10 witness: a 401 failure at a concrete call leaves the target at
its prior value 7 with no decode attempt. -/
theorem c10_error_paths_never_write_out_witness :
    (Do (Client.mk "tok" "b" "1.0") (Request.mk "GET" "u" [] none)
      (fun _ => Except.ok (Response.mk 401 Body.empty)) none
      (some (fun _ => Except.ok (0 : Nat))) 7).out = 7 ∧
    Event.decodeOut ∉ (Do (Client.mk "tok" "b" "1.0") (Request.mk "GET" "u" [] none)
      (fun _ => Except.ok (Response.mk 401 Body.empty)) none
      (some (fun _ => Except.ok (0 : Nat))) 7).trace :=
  c10_error_paths_never_write_out (Client.mk "tok" "b" "1.0")
    (Request.mk "GET" "u" [] none)
    (fun _ => Except.ok (Response.mk 401 Body.empty)) none
    (some (fun _ => Except.ok (0 : Nat))) 7 ApiError.notAuthenticated rfl rfl

end Cloud
